import Mathlib

/-!
# Verification of the Agent-Factory SDK core

Shallow embedding of the SDK's in-process event emitter (`src/events.ts`,
class `UniversalEventEmitter`) and of the state coordinator
(`src/sdk.ts`, class `AgentFactoryHandler`): agent-state mutation,
session/task switching, the chat round-trip, and function-call dispatch.

Conventions of the embedding:
* JS numbers used as selectors are `Int` (they may be zero or negative);
  timestamps are `Nat` (an abstract clock value passed in explicitly).
* Network calls are parameters `String → Except SdkError β` (the URL path
  identifies the fetched resource); every coordinator operation returns,
  besides its result and the post-state, the ordered list of URLs it
  fetched and the ordered list of events it emitted, so that "performs no
  network call" and "emits exactly these notifications" are statable.
* A rejected promise / thrown error is `Except.error`.
-/

set_option maxRecDepth 2000

/-! ## Event emitter (`src/events.ts`) -/

namespace UniversalEventEmitter

/-- The `events` field of the emitter: a map from event name to the ordered
list of registered listeners, modelled as an association list whose keys are
unique (JS object keys).  Listeners are identified by opaque `Nat` ids; the
behaviour attached to an id is supplied separately (see `Behavior`). -/
abbrev Events : Type := List (String × List Nat)

/-- `this.events[event]`, with a missing key read as the empty list (the TS
code guards `!listeners` separately, which collapses to the same test as
`length === 0`).  Mirrors the lookup used by `emit`, `off` and
`listeners`. -/
def listenersOf (es : Events) (event : String) : List Nat :=
  match es.find? (fun p => p.1 == event) with
  | some p => p.2
  | none => []

/-- `on(event, listener)`: create the key if absent, then push the listener
at the end of the list.  (`on` is a reserved token in Lean, so the
definition carries the spec's name for the same operation.) -/
def subscribe (es : Events) (event : String) (l : Nat) : Events :=
  match es.find? (fun p => p.1 == event) with
  | some _ => es.map (fun p => if p.1 == event then (p.1, p.2 ++ [l]) else p)
  | none => es ++ [(event, [l])]

/-- `indexOf` + `splice(index, 1)`: remove the first occurrence, if any. -/
def removeFirst (xs : List Nat) (l : Nat) : List Nat :=
  match xs with
  | [] => []
  | x :: rest => if x == l then rest else x :: removeFirst rest l

/-- `off(event, listener)`: no-op when the event has no entry; otherwise
remove the first occurrence of the listener and delete the key when the
remaining list is empty. -/
def off (es : Events) (event : String) (l : Nat) : Events :=
  match es.find? (fun p => p.1 == event) with
  | none => es
  | some p =>
    let remaining := removeFirst p.2 l
    if remaining.isEmpty then es.filter (fun q => !(q.1 == event))
    else es.map (fun q => if q.1 == event then (q.1, remaining) else q)

/-- Outcome of invoking one listener: the listener body may mutate the
subscription map (calling `on` / `off` reentrantly) and either return
normally (`ok`) or throw (`thrown`).  Both constructors carry the map as
mutated so far at the moment the listener returns or throws. -/
inductive LRun where
  | ok (es : Events)
  | thrown (es : Events)

/-- The behaviour environment: what the listener registered under each id
does when invoked with the current subscription map and the payload. -/
def Behavior (α : Type) : Type := Nat → Events → α → LRun

/-- The loop body of `emit`: `listeners.slice().forEach(l => try l(...args)
catch log)`.  The iteration list is the snapshot taken before the loop;
the subscription map is threaded through the invocations; a thrown
listener is caught (its map mutations persist) and the loop continues.
Returns the final map and the invocation log `(listener id, payload)` in
invocation order. -/
def deliverAll (beh : Behavior α) (es : Events) (snapshot : List Nat) (payload : α) :
    Events × List (Nat × α) :=
  match snapshot with
  | [] => (es, [])
  | id :: rest =>
    let es2 := match beh id es payload with
      | .ok e2 => e2
      | .thrown e2 => e2
    let r := deliverAll beh es2 rest payload
    (r.1, (id, payload) :: r.2)

/-- `emit(event, ...args)`: returns `false` (and performs no work) when the
event has no listeners; otherwise invokes every listener of the snapshot
and returns `true`.  The `Bool` is `emit`'s return value; the third
component is the invocation log. -/
def emit (beh : Behavior α) (es : Events) (event : String) (payload : α) :
    Events × Bool × List (Nat × α) :=
  let listeners := listenersOf es event
  if listeners.isEmpty then (es, false, [])
  else
    let r := deliverAll beh es listeners payload
    (r.1, true, r.2)

/-- `once(event, listener)`: the registered wrapper first invokes the
underlying handler `h` and only then unsubscribes itself (`this.off`); when
`h` throws, the exception leaves the wrapper before the `off` line runs, so
no unsubscription happens. -/
def onceWrapper (h : Events → α → LRun) (event : String) (w : Nat) :
    Events → α → LRun :=
  fun es payload =>
    match h es payload with
    | .ok es2 => .ok (off es2 event w)
    | .thrown es2 => .thrown es2

end UniversalEventEmitter

/-! ## State coordinator data model (`src/sdk.ts`, `src/types/…`) -/

namespace AgentFactoryHandler

/-- One error taxonomy for everything the coordinator throws or that a
transport call rejects with.  The selection / argument errors mirror the
`throw new Error(...)` sites of `sdk.ts`; `transport` stands for a rejected
HTTP promise. -/
inductive SdkError where
  | noSessions
  | sessionIndexOutOfRange (n : Int)
  | sessionNotFound (n : Int)
  | noTasks
  | taskIndexOutOfRange (n : Int)
  | taskNotFound (n : Int)
  | unknownFunctionCall (name : String)
  | missingTaskId
  | missingSessionArg
  | missingSkillName
  | skillNotFound (n : Int)
  | transport (message : String)
  deriving DecidableEq, Repr

/-- An entry of `agent_details.sessions` (`SessionType[] | string[]`): either
a bare id string or a session object.  The object's `id` is optional in the
`Partial` case, hence `Option String`. -/
inductive SessionRef where
  | str (id : String)
  | obj (id : Option String)
  deriving DecidableEq, Repr

/-- An entry of `session_details.tasks` (`Partial<TaskType>[]`, with the
code also tolerating bare strings via `typeof … === "string"`). -/
inductive TaskRef where
  | str (id : String)
  | obj (id : Option String)
  deriving DecidableEq, Repr

/-- A `Partial<SkillType>` entry of `task_details.skills`; only `id` is read
by the coordinator (`selectedSkill.id`). -/
structure SkillFetched where
  id : Option String
  deriving DecidableEq, Repr

/-- A `SessionType` as fetched from `/v2/agents/sessions/:id`; the
coordinator reads `id` implicitly (stored wholesale) and `tasks`.  The
remaining `SessionType` fields are never consulted by the embedded
operations and are omitted. -/
structure SessionFetched where
  id : String
  tasks : Option (List TaskRef)
  deriving DecidableEq, Repr

/-- A `TaskType` as fetched from `/v2/agents/tasks/:id`; the coordinator
reads `id`, `display_name` and `skills`; the remaining fields are never
consulted and are omitted. -/
structure TaskFetched where
  id : String
  display_name : Option String
  skills : Option (List SkillFetched)
  deriving DecidableEq, Repr

/-- An `AgentType` as fetched from `/v2/agents/agent-details/:id`; the
coordinator reads `sessions` plus the two timestamps that the spread
`{...this.agentState, ...agentDetails}` copies over the state's own
`created_at` / `updated_at` keys.  (The spread also deposits the remaining
`AgentType` keys — `id`, `name`, … — as stray top-level keys of the state
object; no later code reads them, so they are not modelled.) -/
structure AgentFetched where
  created_at : Nat
  updated_at : Nat
  sessions : Option (List SessionRef)
  deriving DecidableEq, Repr

/-- The `agent_details` field of the state.  The constructor initialises it
with `{system_instructions: "", role: "", tools: [], sessions: [], name: ""}`;
`tools` is never read by the embedded operations and is omitted. -/
structure AgentDetails where
  system_instructions : String
  role : String
  sessions : Option (List SessionRef)
  name : String
  deriving DecidableEq, Repr

/-- The coordinator's `AgentState`.  `session_details` / `task_details`
start as the empty object `{}` (modelled `none`) and are replaced wholesale
with fetched payloads (`some …`).  Timestamps are abstract clock values. -/
structure AgentState where
  created_at : Nat
  updated_at : Nat
  agent_id : String
  agent_details : AgentDetails
  session_id : String
  session_details : Option SessionFetched
  task_id : String
  task_details : Option TaskFetched
  deriving DecidableEq, Repr

/-- The state installed by the constructor (lines 56–71 of `sdk.ts`);
`now` stands for the `new Date()` calls. -/
def initialState (now : Nat) : AgentState :=
  { created_at := now
    updated_at := now
    agent_id := ""
    agent_details :=
      { system_instructions := "", role := "", sessions := some [], name := "" }
    session_id := ""
    session_details := none
    task_id := ""
    task_details := none }

/-- `FunctionCall`: `{name, args}` with `args: Record<string, any>`; the
argument record is opaque to the dispatch layer studied here. -/
structure FunctionCall where
  name : String
  args : List (String × String)
  deriving DecidableEq, Repr

/-- The notifications the coordinator emits, carrying the fields that
distinguish them.  (Each TS payload also carries the current `agentState`
and, for history events, the history snapshot; those are recoverable from
the operation's post-state and are not duplicated here.) -/
inductive SdkEvent where
  | messageSent (message : String)
  | messageReceived (message : String)
  | conversationHistoryUpdated
  | sessionSwitched (oldSessionId : Option String) (newSessionId : String)
  | taskSwitched (oldTaskId : Option String) (newTaskId : String)
  | skillCalled (skillId : Option String) (message : String)
  | functionCallReceived (fc : FunctionCall)
  | functionCallApproved (fc : FunctionCall)
  | functionCallDeclined (fc : FunctionCall)
  | functionCallExecuted (fc : FunctionCall)
  | agentStateInitialized
  | agentStateInitializedError (agentId : String)
  deriving DecidableEq, Repr

/-- The observable outcome of one coordinator operation: the returned or
thrown value, the post-state, the fetched URLs in order, and the emitted
events in order. -/
structure SdkOut (α : Type) where
  result : Except SdkError α
  state : AgentState
  fetches : List String
  events : List SdkEvent

/-- URL of the session-detail fetch. -/
def sessionUrl (id : String) : String := "/v2/agents/sessions/" ++ id

/-- URL of the task-detail fetch. -/
def taskUrl (id : String) : String := "/v2/agents/tasks/" ++ id

/-- URL of the agent-detail fetch. -/
def agentUrl (id : String) : String := "/v2/agents/agent-details/" ++ id

end AgentFactoryHandler

/-! ## Session / task switching (`sdk.ts` lines 1062–1173) -/

namespace AgentFactoryHandler

/-- The `sessionId: string | number` (resp. `taskId`) union parameter. -/
inductive Selector where
  | byId (id : String)
  | byIndex (n : Int)
  deriving DecidableEq, Repr

/-- JS array indexing `xs[n]` for a possibly negative or too-large `n`:
`undefined` (`none`) outside `0 ≤ n < xs.length`. -/
def jsIndex (xs : List α) (n : Int) : Option α :=
  if n < 0 then none else xs.get? n.toNat

/-- JS truthiness of a `sessions` array entry: only the bare empty string is
falsy (an object is always truthy).  Used for the `if (!sessionRef)`
guard. -/
def SessionRef.falsy : SessionRef → Bool
  | .str s => s == ""
  | .obj _ => false

/-- `typeof sessionRef === "string" ? sessionRef : sessionRef.id || ""`. -/
def SessionRef.resolvedId : SessionRef → String
  | .str s => s
  | .obj oid => oid.getD ""

/-- Same truthiness guard for a task entry (`if (!taskRef)`). -/
def TaskRef.falsy : TaskRef → Bool
  | .str s => s == ""
  | .obj _ => false

/-- `typeof taskRef === "string" ? taskRef : taskRef.id || ""`. -/
def TaskRef.resolvedId : TaskRef → String
  | .str s => s
  | .obj oid => oid.getD ""

/-- Id interpolated into the task-detail URL when following a session's
first task: `typeof tasks[0] === "string" ? tasks[0] : tasks[0]?.id`.  A
missing `id` interpolates as the literal string `"undefined"` in the
template URL. -/
def TaskRef.fetchId : TaskRef → String
  | .str s => s
  | .obj oid => oid.getD "undefined"

/-- Id interpolated into the session-detail URL when following the agent's
first session (`initializeAgentState`): `typeof sessions[0] === "string" ?
sessions[0] : sessions[0].id`, with a missing `id` interpolating as
`"undefined"`. -/
def SessionRef.fetchId : SessionRef → String
  | .str s => s
  | .obj oid => oid.getD "undefined"

/-- The selector-validation prefix of `changeSession` (lines 1066–1089): a
string selector is taken as-is; a numeric selector requires a non-empty
`agent_details.sessions`, must lie in `[1, length]`, and resolves through
`sessions[sessionId - 1]`. -/
def resolveSessionSelector (s : AgentState) (sel : Selector) :
    Except SdkError String :=
  match sel with
  | .byId id => .ok id
  | .byIndex n =>
    match s.agent_details.sessions with
    | none => .error .noSessions
    | some sessions =>
      if sessions.isEmpty then .error .noSessions
      else if n < 1 ∨ n > (sessions.length : Int) then
        .error (.sessionIndexOutOfRange n)
      else
        match jsIndex sessions (n - 1) with
        | none => .error (.sessionNotFound n)
        | some ref =>
          if ref.falsy then .error (.sessionNotFound n) else .ok ref.resolvedId

/-- The selector-validation prefix of `changeTask` (lines 1131–1154).  Note
the differences from `resolveSessionSelector`, faithful to the source: no
lower bound is checked (`if (taskId > tasks.length)` only), and the array is
indexed with the raw selector (`tasks[taskId]`, not `tasks[taskId - 1]`),
although the code's own comment says "treat as 1-based index". -/
def resolveTaskSelector (s : AgentState) (sel : Selector) :
    Except SdkError String :=
  match sel with
  | .byId id => .ok id
  | .byIndex n =>
    match s.session_details with
    | none => .error .noTasks
    | some details =>
      match details.tasks with
      | none => .error .noTasks
      | some tasks =>
        if tasks.isEmpty then .error .noTasks
        else if n > (tasks.length : Int) then .error (.taskIndexOutOfRange n)
        else
          match jsIndex tasks n with
          | none => .error (.taskNotFound n)
          | some ref =>
            if ref.falsy then .error (.taskNotFound n) else .ok ref.resolvedId

/-- `changeSession(sessionId)` (lines 1062–1122).  After validation it
fetches the session detail, replaces `session_id` / `session_details`, and —
when the fetched detail has a non-empty `tasks` — fetches the first task and
replaces `task_id` / `task_details` too; a task-less session leaves the task
fields untouched.  `updated_at` is never written.  The `sessionSwitched`
payload carries `oldSessionId` only when the previous id was truthy.  The
optional `callback` parameter of the source is dead in-repo and omitted. -/
def changeSession (fetchSession : String → Except SdkError SessionFetched)
    (fetchTask : String → Except SdkError TaskFetched)
    (s : AgentState) (sel : Selector) : SdkOut Unit :=
  let oldSessionId := s.session_id
  match resolveSessionSelector s sel with
  | .error e => { result := .error e, state := s, fetches := [], events := [] }
  | .ok actualSessionId =>
    match fetchSession actualSessionId with
    | .error e =>
      { result := .error e, state := s,
        fetches := [sessionUrl actualSessionId], events := [] }
    | .ok details =>
      let s1 := { s with session_id := actualSessionId
                         session_details := some details }
      let switched := SdkEvent.sessionSwitched
        (if oldSessionId == "" then none else some oldSessionId) actualSessionId
      match details.tasks with
      | none =>
        { result := .ok (), state := s1,
          fetches := [sessionUrl actualSessionId], events := [switched] }
      | some [] =>
        { result := .ok (), state := s1,
          fetches := [sessionUrl actualSessionId], events := [switched] }
      | some (first :: _) =>
        match fetchTask first.fetchId with
        | .error e =>
          { result := .error e, state := s1,
            fetches := [sessionUrl actualSessionId, taskUrl first.fetchId],
            events := [] }
        | .ok task =>
          { result := .ok (),
            state := { s1 with task_id := task.id, task_details := some task },
            fetches := [sessionUrl actualSessionId, taskUrl first.fetchId],
            events := [switched] }

/-- `changeTask(taskId)` (lines 1127–1173): validation via
`resolveTaskSelector`, then a task-detail fetch, then `task_id` is set to
the resolved id and `task_details` to the fetched payload.  `updated_at` is
never written.  The `taskSwitched` payload carries `oldTaskId` only when the
previous id was truthy. -/
def changeTask (fetchTask : String → Except SdkError TaskFetched)
    (s : AgentState) (sel : Selector) : SdkOut Unit :=
  let oldTaskId := s.task_id
  match resolveTaskSelector s sel with
  | .error e => { result := .error e, state := s, fetches := [], events := [] }
  | .ok actualTaskId =>
    match fetchTask actualTaskId with
    | .error e =>
      { result := .error e, state := s,
        fetches := [taskUrl actualTaskId], events := [] }
    | .ok task =>
      { result := .ok (),
        state := { s with task_id := actualTaskId, task_details := some task },
        fetches := [taskUrl actualTaskId],
        events := [SdkEvent.taskSwitched
          (if oldTaskId == "" then none else some oldTaskId) actualTaskId] }

end AgentFactoryHandler

/-! ## State accessors and initialization (`sdk.ts` lines 986–1057) -/

namespace AgentFactoryHandler

/-- A `Partial<AgentState>` merge patch: `none` = key absent from
`updates`.  The `session_details` / `task_details` payload is itself
optional in the state, hence the nested `Option`.  An `updated_at` entry in
the patch would be overwritten by the trailing `updated_at: new Date()` of
`updateAgentState` and is therefore not modelled. -/
structure StatePatch where
  created_at : Option Nat := none
  agent_id : Option String := none
  agent_details : Option AgentDetails := none
  session_id : Option String := none
  session_details : Option (Option SessionFetched) := none
  task_id : Option String := none
  task_details : Option (Option TaskFetched) := none
  deriving DecidableEq, Repr

/-- `updateAgentState(updates)` (lines 997–1003):
`{...this.agentState, ...updates, updated_at: new Date()}`; `now` stands
for the `new Date()` call. -/
def updateAgentState (now : Nat) (s : AgentState) (u : StatePatch) : AgentState :=
  { created_at := u.created_at.getD s.created_at
    updated_at := now
    agent_id := u.agent_id.getD s.agent_id
    agent_details := u.agent_details.getD s.agent_details
    session_id := u.session_id.getD s.session_id
    session_details := u.session_details.getD s.session_details
    task_id := u.task_id.getD s.task_id
    task_details := u.task_details.getD s.task_details }

/-- `initializeAgentState(agentId)` (lines 1008–1057).  The first statement
inside the `try` is `this.agentState.agent_id = agentId`, before any fetch;
a failure anywhere in the `try` therefore leaves that write (and any later
ones already performed) in place, emits `agentStateInitializedError
{error, agentId}` and rethrows.  The success path spreads the fetched
`AgentType` over the state (which overwrites `created_at` / `updated_at`
with the agent's own timestamps and does NOT touch `agent_details`), then
follows the first session and, when present, its first task. -/
def initializeAgentState (fetchAgent : String → Except SdkError AgentFetched)
    (fetchSession : String → Except SdkError SessionFetched)
    (fetchTask : String → Except SdkError TaskFetched)
    (s : AgentState) (agentId : String) : SdkOut Unit :=
  let s1 := { s with agent_id := agentId }
  match fetchAgent agentId with
  | .error e =>
    { result := .error e, state := s1, fetches := [agentUrl agentId],
      events := [.agentStateInitializedError agentId] }
  | .ok agentDetails =>
    let s2 := { s1 with created_at := agentDetails.created_at
                        updated_at := agentDetails.updated_at }
    match agentDetails.sessions with
    | none =>
      { result := .ok (), state := s2, fetches := [agentUrl agentId],
        events := [.agentStateInitialized] }
    | some [] =>
      { result := .ok (), state := s2, fetches := [agentUrl agentId],
        events := [.agentStateInitialized] }
    | some (firstRef :: _) =>
      match fetchSession firstRef.fetchId with
      | .error e =>
        { result := .error e, state := s2,
          fetches := [agentUrl agentId, sessionUrl firstRef.fetchId],
          events := [.agentStateInitializedError agentId] }
      | .ok firstSession =>
        let s3 := { s2 with session_id := firstSession.id
                            session_details := some firstSession }
        match firstSession.tasks with
        | none =>
          { result := .ok (), state := s3,
            fetches := [agentUrl agentId, sessionUrl firstRef.fetchId],
            events := [.agentStateInitialized] }
        | some [] =>
          { result := .ok (), state := s3,
            fetches := [agentUrl agentId, sessionUrl firstRef.fetchId],
            events := [.agentStateInitialized] }
        | some (firstTaskRef :: _) =>
          match fetchTask firstTaskRef.fetchId with
          | .error e =>
            { result := .error e, state := s3,
              fetches := [agentUrl agentId, sessionUrl firstRef.fetchId,
                          taskUrl firstTaskRef.fetchId],
              events := [.agentStateInitializedError agentId] }
          | .ok firstTask =>
            { result := .ok (),
              state := { s3 with task_id := firstTask.id
                                 task_details := some firstTask },
              fetches := [agentUrl agentId, sessionUrl firstRef.fetchId,
                          taskUrl firstTaskRef.fetchId],
              events := [.agentStateInitialized] }

end AgentFactoryHandler

/-! ## Function-call dispatch (`sdk.ts` lines 775–941) -/

namespace AgentFactoryHandler

/-- The three public auto-execution booleans of the handler (all default
`true`). -/
structure AutoFlags where
  autoSwitchTask : Bool := true
  autoUseSkill : Bool := true
  autoSwitchSession : Bool := true
  deriving DecidableEq, Repr

/-- `shouldAutoExecuteFunctionCall` (lines 804–815): the flag matching the
call's name, `false` for any unrecognized name. -/
def shouldAutoExecuteFunctionCall (flags : AutoFlags) (fc : FunctionCall) : Bool :=
  if fc.name == "switchTask" then flags.autoSwitchTask
  else if fc.name == "switchSession" then flags.autoSwitchSession
  else if fc.name == "useSkill" then flags.autoUseSkill
  else false

/-- The three `execute…` bodies (`executeSwitchTask`,
`executeSwitchSession`, `executeUseSkill`) as an abstract environment: each
takes the current state and the call's argument record and, like any
coordinator operation, yields a result (a follow-up-response value, made
opaque as `String`), a post-state, fetches, and events.  Dispatch-layer
claims hold for every such environment. -/
structure ExecEnv where
  switchTask : AgentState → List (String × String) → SdkOut String
  switchSession : AgentState → List (String × String) → SdkOut String
  useSkill : AgentState → List (String × String) → SdkOut String

/-- `approveFunctionCall(functionCall)` (lines 820–860): emits
`functionCallApproved`, dispatches on the name — throwing
`Unknown function call: <name>` for any unrecognized one — and on success
emits `functionCallExecuted`; an execution failure is rethrown after the
events emitted so far. -/
def approveFunctionCall (exec : ExecEnv) (s : AgentState) (fc : FunctionCall) :
    SdkOut String :=
  let approved := SdkEvent.functionCallApproved fc
  let run : SdkOut String :=
    if fc.name == "switchTask" then exec.switchTask s fc.args
    else if fc.name == "switchSession" then exec.switchSession s fc.args
    else if fc.name == "useSkill" then exec.useSkill s fc.args
    else
      { result := .error (.unknownFunctionCall fc.name), state := s,
        fetches := [], events := [] }
  match run.result with
  | .ok v =>
    { run with result := .ok v,
               events := approved :: run.events ++ [.functionCallExecuted fc] }
  | .error e =>
    { run with result := .error e, events := approved :: run.events }

/-- What the dispatch hands back to `testChat` / `testSkill`: either the
executed result or the `{functionCall, requiresApproval: true}` object. -/
inductive HandleResult where
  | executed (v : String)
  | requiresApproval (fc : FunctionCall)
  deriving DecidableEq, Repr

/-- `handleFunctionCall(functionCall)` (lines 775–799): emits
`functionCallReceived`, consults the matching auto flag, and either
forwards to `approveFunctionCall` or returns `{functionCall,
requiresApproval: true}` untouched.  (The optional `message` parameter —
whose `_meta` would be marked PENDING — is never passed by the in-repo
callers and is omitted.) -/
def handleFunctionCall (flags : AutoFlags) (exec : ExecEnv) (s : AgentState)
    (fc : FunctionCall) : SdkOut HandleResult :=
  let received := SdkEvent.functionCallReceived fc
  if shouldAutoExecuteFunctionCall flags fc then
    let r := approveFunctionCall exec s fc
    { result := r.result.map .executed, state := r.state,
      fetches := r.fetches, events := received :: r.events }
  else
    { result := .ok (.requiresApproval fc), state := s, fetches := [],
      events := [received] }

end AgentFactoryHandler

/-! ## Chat round-trip (`sdk.ts` lines 599–662) -/

namespace AgentFactoryHandler

/-- An `EnhancedContent` history entry as built by `testChat`: a role, the
text fragments of `parts`, and the `_meta.timestamp`. -/
structure Msg where
  role : String
  parts : List String
  timestamp : String
  deriving DecidableEq, Repr

/-- The user fragment built at the top of `testChat` (`role: "user"`,
single text part, timestamped). -/
def mkUserMessage (message ts : String) : Msg :=
  { role := "user", parts := [message], timestamp := ts }

/-- The model fragment built by `processResponseWithFunctionCalls`. -/
def mkModelMessage (text ts : String) : Msg :=
  { role := "model", parts := [text], timestamp := ts }

/-- The body shape the chat endpoint answers with; only `message` and
`action` are read by `testChat`. -/
structure ChatResponse where
  message : String
  action : Option FunctionCall
  deriving DecidableEq, Repr

/-- Stand-in for `JSON.stringify(response)`, used when `response.message`
is falsy (empty). -/
def stringifyResponse (r : ChatResponse) : String :=
  "\x7b\"message\":\"" ++ r.message ++ "\"\x7d"

/-- `testChat`'s external collaborators: the `POST /chat/test-chat` outcome
as a function of the request history it is sent, and the effect of
`handleFunctionCall` on a non-empty `action`, abstracted as its returned
value together with the suffix of messages its nested processing appends to
the history (every in-repo dispatch path only ever appends). -/
structure ChatEnv where
  post : List Msg → Except SdkError ChatResponse
  dispatchResult : FunctionCall → Except SdkError String
  dispatchAppended : FunctionCall → List Msg
  dispatchEvents : FunctionCall → List SdkEvent

/-- What one `testChat` call leaves behind: its returned or rethrown value,
the durable `conversationHistory` afterwards, and the emitted events. -/
structure ChatOut where
  result : Except SdkError String
  history : List Msg
  events : List SdkEvent

/-- `testChat(message, history)` (lines 599–662): builds the user fragment,
emits `messageSent`, POSTs `history + [userMessage]`, and only after a
successful round-trip pushes the user fragment onto the durable history; a
rejected POST is logged and rethrown with the durable history untouched.
With a non-empty `action` the dispatch result is returned directly;
otherwise the model fragment (`response.message ||
JSON.stringify(response)`) is appended and `messageReceived` /
`conversationHistoryUpdated` are emitted.  `hist` is the durable history at
entry (the default argument `this.conversationHistory`); `ts` stands for
the `new Date().toLocaleTimeString()` calls. -/
def testChat (env : ChatEnv) (hist : List Msg) (message ts : String) : ChatOut :=
  let userMessage := mkUserMessage message ts
  let requestHistory := hist ++ [userMessage]
  match env.post requestHistory with
  | .error e =>
    { result := .error e, history := hist, events := [.messageSent message] }
  | .ok response =>
    let h1 := hist ++ [userMessage]
    match response.action with
    | some fc =>
      { result := env.dispatchResult fc,
        history := h1 ++ env.dispatchAppended fc,
        events := .messageSent message :: env.dispatchEvents fc }
    | none =>
      let text := if response.message == "" then stringifyResponse response
                  else response.message
      { result := .ok response.message,
        history := h1 ++ [mkModelMessage text ts],
        events := [.messageSent message, .messageReceived response.message,
                   .conversationHistoryUpdated] }

end AgentFactoryHandler

/-! ## Concrete emitter scenarios (used by witnesses and counterexamples) -/

namespace UniversalEventEmitter

/-- A handler that returns normally and leaves the subscription map
untouched. -/
def pureHandler : Events → Nat → LRun := fun es _ => .ok es

/-- A handler that always throws. -/
def throwingHandler : Events → Nat → LRun := fun es _ => .thrown es

/-- Behaviour environment after `emitter.once("evt", pureHandler)`: the
registered wrapper (id 0) is the `once` wrapper around `pureHandler`. -/
def onceDemoBeh : Behavior Nat := fun _ es q => onceWrapper pureHandler "evt" 0 es q

/-- Behaviour environment after `emitter.once("evt", throwingHandler)`. -/
def onceThrowBeh : Behavior Nat := fun _ es q => onceWrapper throwingHandler "evt" 0 es q

/-- The subscription map after `once("evt", …)` on a fresh emitter: the
wrapper id 0 registered for `"evt"`. -/
def onceDemoEvents : Events := subscribe [] "evt" 0

end UniversalEventEmitter

/-! ## Concrete coordinator scenarios (used by witnesses and counterexamples) -/

namespace AgentFactoryHandler

/-- Task store that resolves every id to a task with that id. -/
def stubFetchTask : String → Except SdkError TaskFetched :=
  fun tid => .ok { id := tid, display_name := none, skills := none }

/-- Transport that rejects every session fetch. -/
def failFetchSession : String → Except SdkError SessionFetched :=
  fun _ => .error (.transport "network down")

/-- Transport that rejects every task fetch. -/
def failFetchTask : String → Except SdkError TaskFetched :=
  fun _ => .error (.transport "network down")

/-- Transport that rejects every agent fetch. -/
def failFetchAgent : String → Except SdkError AgentFetched :=
  fun _ => .error (.transport "network down")

/-- A state whose current session `S1` carries the two tasks `T1`, `T2`. -/
def twoTaskState : AgentState :=
  { initialState 0 with
      session_id := "S1"
      session_details := some { id := "S1", tasks := some [.str "T1", .str "T2"] } }

/-- Session store with a task-less `S2` and an `S3` whose first task is
`T3`. -/
def demoFetchSession : String → Except SdkError SessionFetched :=
  fun sid =>
    if sid == "S2" then .ok { id := "S2", tasks := none }
    else if sid == "S3" then .ok { id := "S3", tasks := some [.str "T3"] }
    else .error (.transport "no such session")

/-- Execution environment whose three executors succeed without touching
anything. -/
def stubExec : ExecEnv :=
  { switchTask := fun s _ => { result := .ok "", state := s, fetches := [], events := [] }
    switchSession := fun s _ => { result := .ok "", state := s, fetches := [], events := [] }
    useSkill := fun s _ => { result := .ok "", state := s, fetches := [], events := [] } }

/-- Chat collaborators whose POST always succeeds with a plain message and
no function call. -/
def okChatEnv : ChatEnv :=
  { post := fun _ => .ok { message := "fine", action := none }
    dispatchResult := fun _ => .ok ""
    dispatchAppended := fun _ => []
    dispatchEvents := fun _ => [] }

/-- Chat collaborators whose POST always rejects. -/
def failChatEnv : ChatEnv :=
  { post := fun _ => .error (.transport "network down")
    dispatchResult := fun _ => .ok ""
    dispatchAppended := fun _ => []
    dispatchEvents := fun _ => [] }

end AgentFactoryHandler

/-! ## Decidability of result comparison -/

instance {ε α : Type} [DecidableEq ε] [DecidableEq α] : DecidableEq (Except ε α) := fun a b =>
  match a, b with
  | .ok x, .ok y =>
    if h : x = y then .isTrue (by rw [h]) else .isFalse (by intro hc; cases hc; exact h rfl)
  | .ok _, .error _ => .isFalse (by intro hc; cases hc)
  | .error _, .ok _ => .isFalse (by intro hc; cases hc)
  | .error x, .error y =>
    if h : x = y then .isTrue (by rw [h]) else .isFalse (by intro hc; cases hc; exact h rfl)

/-! ## Notifier theorems (claims C5, C6) -/

open UniversalEventEmitter

/-- Every listener of the snapshot is invoked exactly once, with the
payload, in snapshot order — independently of what the listeners do to the
subscription map and of whether they throw. -/
theorem deliverAll_log {α : Type} (beh : Behavior α) (payload : α) :
    ∀ (snapshot : List Nat) (es : Events),
      (deliverAll beh es snapshot payload).2 = snapshot.map (fun id => (id, payload)) := by
  intro snapshot
  induction snapshot with
  | nil => intro es; rfl
  | cons id rest ih =>
    intro es
    unfold deliverAll
    simp only [List.map_cons]
    cases beh id es payload with
    | ok e2 => simpa using ih e2
    | thrown e2 => simpa using ih e2

/-- A lookup after all entries for the event were filtered away finds
nothing. -/
theorem listenersOf_filter_out (es : Events) (event : String) :
    listenersOf (es.filter (fun q => !(q.1 == event))) event = [] := by
  unfold listenersOf
  cases hf : (es.filter (fun q => !(q.1 == event))).find? (fun p => p.1 == event) with
  | none => rfl
  | some pr =>
    have hpred : (pr.1 == event) = true := by
      have := List.find?_some hf
      simpa using this
    have hmem : pr ∈ es.filter (fun q => !(q.1 == event)) :=
      List.mem_of_find?_eq_some hf
    have hneg : (!(pr.1 == event)) = true := by
      have := List.mem_filter.mp hmem
      simpa using this.2
    simp [hpred] at hneg

/-- When the listener list for the event is exactly `[w]`, `off` deletes the
whole entry. -/
theorem off_last_listener (es : Events) (event : String) (w : Nat)
    (hl : listenersOf es event = [w]) :
    listenersOf (off es event w) event = [] := by
  unfold off
  cases hf : es.find? (fun p => p.1 == event) with
  | none =>
    exfalso
    unfold listenersOf at hl
    rw [hf] at hl
    exact List.noConfusion hl
  | some pr =>
    have hpr : pr.2 = [w] := by
      unfold listenersOf at hl
      rw [hf] at hl
      exact hl
    simp [hpr, removeFirst, listenersOf_filter_out es event]

/-- C5: `emit` returns `false`, leaves the subscription map untouched and
invokes nobody when the event has zero listeners; otherwise it invokes every
subscriber of the snapshot taken at publish time, with the payload, in
subscription order — a throwing subscriber is caught, delivery reaches all
remaining subscribers, nothing propagates to the caller (`emit` is total),
and `emit` returns `true`. -/
theorem emit_snapshot_delivery {α : Type} (beh : Behavior α) (es : Events)
    (event : String) (payload : α) :
    emit beh es event payload =
      if (listenersOf es event).isEmpty then (es, false, [])
      else
        ((deliverAll beh es (listenersOf es event) payload).1, true,
          (listenersOf es event).map (fun id => (id, payload))) := by
  unfold emit
  by_cases he : (listenersOf es event).isEmpty
  · simp [he]
  · simp [he, deliverAll_log]

/-- C6 (amended): the `once` wrapper unsubscribes itself immediately after
its handler's first invocation that RETURNS NORMALLY: with the wrapper `w`
as the event's only subscriber and a non-throwing handler that leaves the
subscriptions alone, the first `emit` invokes the wrapper exactly once,
afterwards the wrapper is no longer subscribed, and a second `emit` of the
same event delivers to nobody.  (When the handler throws, the `off` line of
the wrapper never runs and the wrapper stays subscribed — see the
counterexample.) -/
theorem once_unsubscribes_after_normal_return {α : Type} (beh : Behavior α)
    (h : Events → α → LRun) (event : String) (w : Nat) (es : Events) (p p2 : α)
    (hpure : ∀ es2 q, h es2 q = .ok es2)
    (hbw : ∀ es2 q, beh w es2 q = onceWrapper h event w es2 q)
    (hl : listenersOf es event = [w]) :
    listenersOf (emit beh es event p).1 event = [] ∧
    (emit beh es event p).2.2 = [(w, p)] ∧
    emit beh (emit beh es event p).1 event p2 = ((emit beh es event p).1, false, []) := by
  have hstep : emit beh es event p = (off es event w, true, [(w, p)]) := by
    unfold emit
    rw [hl]
    simp [deliverAll, hbw, onceWrapper, hpure]
  have hoff : listenersOf (off es event w) event = [] :=
    off_last_listener es event w hl
  refine ⟨?_, ?_, ?_⟩
  · rw [hstep]
    exact hoff
  · rw [hstep]
  · rw [hstep]
    unfold emit
    simp [hoff]

/-- Witness for the amended C6 theorem at a concrete emitter. -/
theorem once_unsubscribes_witness :
    listenersOf (emit onceDemoBeh onceDemoEvents "evt" (7 : Nat)).1 "evt" = [] ∧
    (emit onceDemoBeh onceDemoEvents "evt" 7).2.2 = [(0, 7)] ∧
    emit onceDemoBeh (emit onceDemoBeh onceDemoEvents "evt" 7).1 "evt" 8 =
      ((emit onceDemoBeh onceDemoEvents "evt" 7).1, false, []) :=
  once_unsubscribes_after_normal_return onceDemoBeh pureHandler "evt" 0 onceDemoEvents 7 8
    (fun _ _ => rfl) (fun _ _ => rfl) (by decide)

/-- C6 counterexample: with a handler that throws on its first invocation,
the `once` wrapper is still subscribed after the first publish that reached
it (`listeners = [0]`), and the next publish of the same event invokes the
handler a second time — refuting the claim's "including when the handler
throws". -/
theorem once_throwing_handler_counterexample :
    listenersOf (emit onceThrowBeh onceDemoEvents "evt" (7 : Nat)).1 "evt" = [0] ∧
    (emit onceThrowBeh (emit onceThrowBeh onceDemoEvents "evt" 7).1 "evt" 7).2.2 =
      [(0, 7)] := by
  constructor
  · decide
  · decide

/-! ## State coordinator theorems (claims C1–C4, C7–C10) -/

open AgentFactoryHandler

/-- C1 (code bug): `changeTask` does NOT obey the 1-based
identifier-or-index contract of `changeSession`.  With
`session_details.tasks = [T1, T2]`: the in-range selector 2 fails
(`tasks[2]` is undefined) with the state untouched, selector 1 resolves to
the SECOND task `T2` instead of `T1`, and the out-of-contract selector 0
succeeds and resolves to `T1` — `tasks[taskId]` is accessed with the raw
selector although the code's own comment and error message describe a
1-based index over `1..tasks.length`. -/
theorem changeTask_index_off_by_one :
    (changeTask stubFetchTask twoTaskState (.byIndex 2)).result =
      .error (.taskNotFound 2) ∧
    (changeTask stubFetchTask twoTaskState (.byIndex 2)).state = twoTaskState ∧
    (changeTask stubFetchTask twoTaskState (.byIndex 1)).state.task_id = "T2" ∧
    (changeTask stubFetchTask twoTaskState (.byIndex 0)).state.task_id = "T1" := by
  refine ⟨?_, ?_, ?_, ?_⟩ <;> decide

/-- C4: a numeric selector with `n < 1` or `n > length(sessions)`, an empty
session list, and an absent session list each make `changeSession` fail
with the matching selection error, perform no fetch (the outcome is the
same for every transport behaviour and the fetch log is empty), emit no
event, and leave the state unchanged. -/
theorem changeSession_out_of_range_no_call
    (fetchS : String → Except SdkError SessionFetched)
    (fetchT : String → Except SdkError TaskFetched) (s : AgentState) (n : Int)
    (h : match s.agent_details.sessions with
         | none => True
         | some l => l.isEmpty = true ∨ n < 1 ∨ n > (l.length : Int)) :
    changeSession fetchS fetchT s (.byIndex n) =
      { result := .error (match s.agent_details.sessions with
          | none => .noSessions
          | some l => if l.isEmpty then .noSessions else .sessionIndexOutOfRange n)
        state := s
        fetches := []
        events := [] } := by
  unfold changeSession resolveSessionSelector
  cases hs : s.agent_details.sessions with
  | none => simp
  | some l =>
    rw [hs] at h
    by_cases he : l.isEmpty
    · simp [he]
    · have hor : n < 1 ∨ n > (l.length : Int) := by
        rcases h with h | h
        · exact absurd h (by simp [he])
        · exact h
      simp [he, hor]

/-- Witness for C4: the constructor state carries an empty session list, so
`changeSession(1)` fails with the no-sessions selection error while
fetching nothing, emitting nothing, and leaving the state untouched. -/
theorem changeSession_out_of_range_witness :
    changeSession failFetchSession failFetchTask (initialState 0) (.byIndex 1) =
      { result := .error .noSessions, state := initialState 0,
        fetches := [], events := [] } :=
  changeSession_out_of_range_no_call failFetchSession failFetchTask
    (initialState 0) 1 (Or.inl rfl)

/-- C8 (amended): `updateAgentState` stamps `updated_at` with the mutation
time on every call, but the mutating operations `changeSession` and
`changeTask` never write `updated_at` — whatever their selector, transport
outcome, or fetched payloads, the post-state `updated_at` equals the
pre-state one. -/
theorem updated_at_stamped_only_by_updateAgentState
    (now : Nat) (s : AgentState) (u : StatePatch)
    (fetchS : String → Except SdkError SessionFetched)
    (fetchT fetchT2 : String → Except SdkError TaskFetched)
    (sel sel2 : Selector) :
    (updateAgentState now s u).updated_at = now ∧
    (changeSession fetchS fetchT s sel).state.updated_at = s.updated_at ∧
    (changeTask fetchT2 s sel2).state.updated_at = s.updated_at := by
  refine ⟨rfl, ?_, ?_⟩
  · unfold changeSession
    repeat' split
    all_goals rfl
  · unfold changeTask
    repeat' split
    all_goals rfl

/-- C8 counterexample: a successful `changeSession` is a genuine state
mutation (it replaces `session_id`), yet the post-state `updated_at` is
exactly the pre-state value — 42 stays 42 and 43 stays 43 — so the
mutation did not refresh it. -/
theorem changeSession_keeps_updated_at_counterexample :
    (changeSession demoFetchSession failFetchTask
      { initialState 42 with session_id := "S1" } (.byId "S2")).result = .ok () ∧
    (changeSession demoFetchSession failFetchTask
      { initialState 42 with session_id := "S1" } (.byId "S2")).state.session_id = "S2" ∧
    (changeSession demoFetchSession failFetchTask
      { initialState 42 with session_id := "S1" } (.byId "S2")).state.updated_at = 42 ∧
    (changeSession demoFetchSession failFetchTask
      { initialState 43 with session_id := "S1" } (.byId "S2")).state.updated_at = 43 := by
  refine ⟨?_, ?_, ?_, ?_⟩ <;> decide

/-- C9: a successful `changeSession` replaces `session_id` and
`session_details` with the resolved id and the fetched detail; when the
fetched detail has at least one task it also replaces `task_id` /
`task_details` with that session's (fetched) first task, and when the
detail has no tasks the previous task fields survive; every other state
field — the record-update form of the post-state makes this exact — is
unchanged, and the session-switched event carries the previous id (when
truthy) and the new one. -/
theorem changeSession_success_frame
    (fetchS : String → Except SdkError SessionFetched)
    (fetchT : String → Except SdkError TaskFetched)
    (s : AgentState) (sel : Selector) (sid : String) (d : SessionFetched)
    (hres : resolveSessionSelector s sel = .ok sid)
    (hfetch : fetchS sid = .ok d) :
    ((d.tasks = none ∨ d.tasks = some []) →
      changeSession fetchS fetchT s sel =
        { result := .ok ()
          state := { s with session_id := sid, session_details := some d }
          fetches := [sessionUrl sid]
          events := [.sessionSwitched
            (if s.session_id == "" then none else some s.session_id) sid] }) ∧
    (∀ r rest t, d.tasks = some (r :: rest) → fetchT r.fetchId = .ok t →
      changeSession fetchS fetchT s sel =
        { result := .ok ()
          state := { s with session_id := sid, session_details := some d,
                            task_id := t.id, task_details := some t }
          fetches := [sessionUrl sid, taskUrl r.fetchId]
          events := [.sessionSwitched
            (if s.session_id == "" then none else some s.session_id) sid] }) := by
  constructor
  · intro htasks
    unfold changeSession
    rcases htasks with h | h <;> simp only [hres, hfetch, h]
  · intro r rest t htasks htask
    unfold changeSession
    simp only [hres, hfetch, htasks, htask]

/-- Witness for C9 at concrete states: switching to the task-less `S2`
replaces only the session fields; switching to `S3` (first task `T3`) also
replaces the task fields with the fetched `T3`. -/
theorem changeSession_success_frame_witness :
    changeSession demoFetchSession stubFetchTask twoTaskState (.byId "S2") =
      { result := .ok ()
        state := { twoTaskState with
                   session_id := "S2",
                   session_details := some { id := "S2", tasks := none } }
        fetches := [sessionUrl "S2"]
        events := [.sessionSwitched (some "S1") "S2"] } ∧
    changeSession demoFetchSession stubFetchTask twoTaskState (.byId "S3") =
      { result := .ok ()
        state := { twoTaskState with
                   session_id := "S3",
                   session_details := some { id := "S3", tasks := some [.str "T3"] },
                   task_id := "T3",
                   task_details := some { id := "T3", display_name := none,
                                          skills := none } }
        fetches := [sessionUrl "S3", taskUrl "T3"]
        events := [.sessionSwitched (some "S1") "S3"] } :=
  ⟨(changeSession_success_frame demoFetchSession stubFetchTask twoTaskState
      (.byId "S2") "S2" { id := "S2", tasks := none } rfl (by decide)).1
      (Or.inl rfl),
   (changeSession_success_frame demoFetchSession stubFetchTask twoTaskState
      (.byId "S3") "S3" { id := "S3", tasks := some [.str "T3"] } rfl
      (by decide)).2
      (.str "T3") [] { id := "T3", display_name := none, skills := none }
      rfl (by decide)⟩

/-- C10: `initializeAgentState` writes `agent_id` before the agent-detail
fetch, so a failing fetch rejects with the transport error, emits the
error notification carrying the agent id, and leaves a post-state whose
`agent_id` is the NEW id while every other field keeps its prior value —
the operation is not atomic on failure. -/
theorem initializeAgentState_failure_not_atomic
    (fetchA : String → Except SdkError AgentFetched)
    (fetchS : String → Except SdkError SessionFetched)
    (fetchT : String → Except SdkError TaskFetched)
    (s : AgentState) (agentId : String) (e : SdkError)
    (hfail : fetchA agentId = .error e) :
    initializeAgentState fetchA fetchS fetchT s agentId =
      { result := .error e
        state := { s with agent_id := agentId }
        fetches := [agentUrl agentId]
        events := [.agentStateInitializedError agentId] } := by
  unfold initializeAgentState
  rw [hfail]

/-- Witness for C10: initializing `"A1"` over a rejecting transport leaves
`agent_id = "A1"` in the otherwise-unchanged constructor state. -/
theorem initializeAgentState_failure_witness :
    initializeAgentState failFetchAgent failFetchSession failFetchTask
        (initialState 0) "A1" =
      { result := .error (.transport "network down")
        state := { initialState 0 with agent_id := "A1" }
        fetches := [agentUrl "A1"]
        events := [.agentStateInitializedError "A1"] } :=
  initializeAgentState_failure_not_atomic failFetchAgent failFetchSession
    failFetchTask (initialState 0) "A1" (.transport "network down") rfl

/-- C2 (amended): a function call whose name is none of `switchTask`,
`switchSession`, `useSkill` fails with `UnknownFunctionCall` only when the
dispatch is entered via `approveFunctionCall`; when it is entered from
`testChat` / `testSkill` (i.e. through `handleFunctionCall` on a non-empty
`action`), the auto-flag lookup yields `false` for the unknown name and the
dispatch returns `{functionCall, requiresApproval: true}` without executing
and without failing — for every flag setting and executor behaviour. -/
theorem unknown_function_call_dispatch
    (flags : AutoFlags) (exec : ExecEnv) (s : AgentState) (fc : FunctionCall)
    (h1 : fc.name ≠ "switchTask") (h2 : fc.name ≠ "switchSession")
    (h3 : fc.name ≠ "useSkill") :
    approveFunctionCall exec s fc =
      { result := .error (.unknownFunctionCall fc.name), state := s,
        fetches := [], events := [.functionCallApproved fc] } ∧
    handleFunctionCall flags exec s fc =
      { result := .ok (.requiresApproval fc), state := s, fetches := [],
        events := [.functionCallReceived fc] } := by
  have b1 : (fc.name == "switchTask") = false := by simp [h1]
  have b2 : (fc.name == "switchSession") = false := by simp [h2]
  have b3 : (fc.name == "useSkill") = false := by simp [h3]
  constructor
  · simp [approveFunctionCall, b1, b2, b3]
  · simp [handleFunctionCall, shouldAutoExecuteFunctionCall,
          approveFunctionCall, b1, b2, b3]

/-- Witness for the amended C2 at the concrete unknown name
`"doADance"`. -/
theorem unknown_function_call_dispatch_witness :
    approveFunctionCall stubExec (initialState 0)
        { name := "doADance", args := [] } =
      { result := .error (.unknownFunctionCall "doADance")
        state := initialState 0
        fetches := []
        events := [.functionCallApproved { name := "doADance", args := [] }] } ∧
    handleFunctionCall {} stubExec (initialState 0)
        { name := "doADance", args := [] } =
      { result := .ok (.requiresApproval { name := "doADance", args := [] })
        state := initialState 0
        fetches := []
        events := [.functionCallReceived { name := "doADance", args := [] }] } :=
  unknown_function_call_dispatch {} stubExec (initialState 0)
    { name := "doADance", args := [] } (by decide) (by decide) (by decide)

/-- C2 counterexample: entered from the `testChat` / `testSkill` path (the
`handleFunctionCall` dispatch on a server-returned `action`), the unknown
name `"doADance"` does NOT fail with `UnknownFunctionCall` — dispatch
returns the manual-approval object, its result is not that error, and the
state is untouched. -/
theorem unknown_function_call_auto_path_counterexample :
    (handleFunctionCall {} stubExec (initialState 0)
        { name := "doADance", args := [] }).result =
      .ok (.requiresApproval { name := "doADance", args := [] }) ∧
    (handleFunctionCall {} stubExec (initialState 0)
        { name := "doADance", args := [] }).result ≠
      .error (.unknownFunctionCall "doADance") ∧
    (handleFunctionCall {} stubExec (initialState 0)
        { name := "doADance", args := [] }).state = initialState 0 := by
  refine ⟨?_, ?_, ?_⟩ <;> decide

/-- C7: for a recognized function-call name, the matching auto flag gates
the dispatch deterministically — flag `false` yields `{functionCall,
requiresApproval: true}` with the state (in particular `task_id`)
unmutated, nothing fetched and nothing executed (the outcome is identical
for every executor environment); flag `true` makes the dispatch proceed
directly to `approveFunctionCall`, whose outcome it returns with the
received-notification prepended. -/
theorem auto_flag_gates_dispatch
    (flags : AutoFlags) (exec : ExecEnv) (s : AgentState) (fc : FunctionCall)
    (_hrec : fc.name = "switchTask" ∨ fc.name = "switchSession" ∨
             fc.name = "useSkill") :
    (shouldAutoExecuteFunctionCall flags fc = false →
      handleFunctionCall flags exec s fc =
        { result := .ok (.requiresApproval fc), state := s, fetches := [],
          events := [.functionCallReceived fc] }) ∧
    (shouldAutoExecuteFunctionCall flags fc = true →
      handleFunctionCall flags exec s fc =
        { result := (approveFunctionCall exec s fc).result.map .executed
          state := (approveFunctionCall exec s fc).state
          fetches := (approveFunctionCall exec s fc).fetches
          events := .functionCallReceived fc ::
            (approveFunctionCall exec s fc).events }) := by
  constructor <;> intro hflag <;> simp [handleFunctionCall, hflag]

/-- Witness for C7: with `autoSwitchTask = false` a `switchTask` call is
returned for manual approval with the state untouched; with all flags at
their default `true` the same call proceeds straight to
`approveFunctionCall`. -/
theorem auto_flag_gates_dispatch_witness :
    handleFunctionCall { autoSwitchTask := false } stubExec twoTaskState
        { name := "switchTask", args := [] } =
      { result := .ok (.requiresApproval { name := "switchTask", args := [] })
        state := twoTaskState
        fetches := []
        events := [.functionCallReceived { name := "switchTask", args := [] }] } ∧
    handleFunctionCall {} stubExec twoTaskState
        { name := "switchTask", args := [] } =
      { result := (approveFunctionCall stubExec twoTaskState
          { name := "switchTask", args := [] }).result.map .executed
        state := (approveFunctionCall stubExec twoTaskState
          { name := "switchTask", args := [] }).state
        fetches := (approveFunctionCall stubExec twoTaskState
          { name := "switchTask", args := [] }).fetches
        events := .functionCallReceived { name := "switchTask", args := [] } ::
          (approveFunctionCall stubExec twoTaskState
            { name := "switchTask", args := [] }).events } :=
  ⟨(auto_flag_gates_dispatch { autoSwitchTask := false } stubExec twoTaskState
      { name := "switchTask", args := [] } (Or.inl rfl)).1 (by decide),
   (auto_flag_gates_dispatch {} stubExec twoTaskState
      { name := "switchTask", args := [] } (Or.inl rfl)).2 (by decide)⟩

/-- C3: the user message becomes durable if and only if the chat POST
round-trips successfully.  When the POST rejects, the durable history after
`testChat` is exactly the history at entry (the fresh user fragment — absent
before the call by hypothesis — is never appended); the user fragment is a
member of the post-call history precisely when the POST succeeded. -/
theorem testChat_appends_user_iff_post_ok
    (env : ChatEnv) (hist : List Msg) (message ts : String)
    (hfresh : mkUserMessage message ts ∉ hist) :
    ((∃ e, env.post (hist ++ [mkUserMessage message ts]) = .error e) →
      (testChat env hist message ts).history = hist) ∧
    (mkUserMessage message ts ∈ (testChat env hist message ts).history ↔
      ∃ resp, env.post (hist ++ [mkUserMessage message ts]) = .ok resp) := by
  cases hp : env.post (hist ++ [mkUserMessage message ts]) with
  | error e =>
    have heq : testChat env hist message ts =
        { result := .error e, history := hist,
          events := [.messageSent message] } := by
      simp only [testChat, hp]
    refine ⟨fun _ => by rw [heq], ?_⟩
    rw [heq]
    constructor
    · intro hmem
      exact absurd hmem hfresh
    · rintro ⟨resp, hresp⟩
      exact absurd hresp (by simp)
  | ok resp =>
    constructor
    · rintro ⟨e, he⟩
      exact absurd he (by simp)
    · constructor
      · intro _
        exact ⟨resp, rfl⟩
      · intro _
        cases ha : resp.action with
        | some fc => simp [testChat, hp, ha]
        | none => simp [testChat, hp, ha]

/-- Witness for C3: over a succeeding transport the user fragment is in the
post-call history; over a rejecting transport the history is unchanged. -/
theorem testChat_appends_user_witness :
    (mkUserMessage "hi" "t" ∈ (testChat okChatEnv [] "hi" "t").history ↔
      ∃ resp, okChatEnv.post [mkUserMessage "hi" "t"] = .ok resp) ∧
    (testChat failChatEnv [] "hi" "t").history = [] :=
  ⟨(testChat_appends_user_iff_post_ok okChatEnv [] "hi" "t"
      (List.not_mem_nil _)).2,
   (testChat_appends_user_iff_post_ok failChatEnv [] "hi" "t"
      (List.not_mem_nil _)).1 ⟨.transport "network down", rfl⟩⟩
